import Mathlib

/-!
Verification of the LINE-to-Symbol bridge (line-to-symbol repository).

This file gives a shallow embedding of the core message-to-transaction
pipeline and proves or refutes the specified properties:

* `src/server.js` — `buildMessageJson` (byte-budget message encoding via
  binary search over prefix length) and the `/webhook` handler's effect on
  the `userLocation` map;
* `src/api/webhook.js` — signed-payload normalization, announce
  classification, and the webhook boundary / event filtering;
* `src/netlify/functions/webhook.js` — announce classification;
* `src/webhook.js` (Vercel revision) — boundary and event handling;
* `src/unnamed/part_004` — the announce body construction of that revision.

Modelling conventions: a JavaScript string is its list of UTF-16 code units
(`List Nat`, each `< 2^16`) where code-unit-level operations matter
(`slice`, `length` in `buildMessageJson`), and a Lean `String` elsewhere.
`JSON.stringify` followed by `TextEncoder.encode` is modelled by producing
the UTF-8 bytes of the serialized JSON directly, per well-formed
`JSON.stringify` semantics (ES2019): a paired surrogate becomes one 4-byte
UTF-8 sequence, a lone surrogate is emitted as a 6-byte `\udXXX` escape.
Fallible steps return `Option` / `Except` (`none` / `.error` = throw).
-/

namespace LineToSymbol

/-! ## UTF-16 code units, JSON string escaping, UTF-8 byte production -/

/-- ASCII code of a hexadecimal digit, lowercase, as in `\uXXXX` escapes. -/
def hexDigit (n : Nat) : Nat :=
  if n < 10 then 48 + n else 87 + n

/-- The four hex digits of a 16-bit value. -/
def hex4 (c : Nat) : List Nat :=
  [hexDigit (c / 4096 % 16), hexDigit (c / 256 % 16), hexDigit (c / 16 % 16), hexDigit (c % 16)]

/-- UTF-8 encoding of a code point in `[0x80, 0x800)`: two bytes. -/
def utf8Two (c : Nat) : List Nat := [192 + c / 64, 128 + c % 64]

/-- UTF-8 encoding of a BMP code point `≥ 0x800`: three bytes. -/
def utf8Three (c : Nat) : List Nat := [224 + c / 4096, 128 + c / 64 % 64, 128 + c % 64]

/-- UTF-8 encoding of an astral code point: four bytes. -/
def utf8Four (c : Nat) : List Nat :=
  [240 + c / 262144, 128 + c / 4096 % 64, 128 + c / 64 % 64, 128 + c % 64]

/-- UTF-8 bytes that `JSON.stringify` contributes for one UTF-16 code unit
that is not part of a surrogate pair: JSON escapes for `"`, `\` and control
characters, plain UTF-8 for other BMP units, `\udXXX` for a lone surrogate. -/
def escUnit (c : Nat) : List Nat :=
  if c = 34 then [92, 34]
  else if c = 92 then [92, 92]
  else if c = 8 then [92, 98]
  else if c = 9 then [92, 116]
  else if c = 10 then [92, 110]
  else if c = 12 then [92, 102]
  else if c = 13 then [92, 114]
  else if c < 32 then 92 :: 117 :: hex4 c
  else if c < 128 then [c]
  else if c < 2048 then utf8Two c
  else if 55296 ≤ c ∧ c < 57344 then 92 :: 117 :: hex4 c
  else utf8Three c

/-- UTF-8 bytes of the `JSON.stringify` rendering of a UTF-16 code-unit
sequence (string contents without the surrounding quotes).  A high
surrogate directly followed by a low surrogate forms one astral code
point (4 UTF-8 bytes); any other unit is escaped or encoded on its own. -/
def escUnits : List Nat → List Nat
  | [] => []
  | c :: rest =>
    if 55296 ≤ c ∧ c < 56320 then
      match rest with
      | [] => escUnit c
      | c2 :: rest2 =>
        if 56320 ≤ c2 ∧ c2 < 57344 then
          utf8Four (65536 + (c - 55296) * 1024 + (c2 - 56320)) ++ escUnits rest2
        else
          escUnit c ++ escUnits (c2 :: rest2)
    else
      escUnit c ++ escUnits rest

/-- A JSON string literal: quote, escaped contents, quote. -/
def serializeString (s : List Nat) : List Nat := 34 :: (escUnits s ++ [34])

/-- ASCII decimal digits, structurally recursive on a fuel bound (the fuel
never runs out when it starts at `n`, since `n / 10 < n` for `n ≥ 10`). -/
def natDigitsAux : Nat → Nat → List Nat
  | 0, n => [48 + n % 10]
  | fuel + 1, n =>
    if n < 10 then [48 + n]
    else natDigitsAux fuel (n / 10) ++ [48 + n % 10]

/-- ASCII decimal digits of a natural number. -/
def natDigits (n : Nat) : List Nat := natDigitsAux n n

/-- JSON rendering of an integer. -/
def intDigits (i : Int) : List Nat :=
  if i < 0 then 45 :: natDigits (-i).toNat else natDigits i.toNat

/-- Bytes of an ASCII string literal (the fixed JSON punctuation). -/
def asciiBytes (s : String) : List Nat := s.toList.map Char.toNat

/-- A `lat` / `lon` field: a number, or `null` when absent (`?? null`). -/
def optIntBytes : Option Int → List Nat
  | none => asciiBytes "null"
  | some i => intDigits i

/-- The `address` field: a string, or `null` when absent (`?? null`). -/
def optStrBytes : Option (List Nat) → List Nat
  | none => asciiBytes "null"
  | some s => serializeString s

/-! ## The note payload and `buildMessageJson` (`src/server.js` 96-124) -/

/-- The note payload built in `server.js` (`app.post("/webhook")`, lines
236-243): `{ userId, text, lat, lon, address, timestamp }`, in that key
order.  Strings are UTF-16 code-unit lists; `lat`/`lon`/`address` are
`null` (`none`) when no stored location exists. -/
structure NotePayload where
  userId : List Nat
  text : List Nat
  lat : Option Int
  lon : Option Int
  address : Option (List Nat)
  timestamp : Nat
deriving DecidableEq, Repr

/-- UTF-8 bytes of `JSON.stringify(payload)` for a `NotePayload`
(key order is the object-literal insertion order of `server.js`). -/
def serializePayload (p : NotePayload) : List Nat :=
  asciiBytes "\x7b\"userId\":" ++ serializeString p.userId ++
  asciiBytes ",\"text\":" ++ serializeString p.text ++
  asciiBytes ",\"lat\":" ++ optIntBytes p.lat ++
  asciiBytes ",\"lon\":" ++ optIntBytes p.lon ++
  asciiBytes ",\"address\":" ++ optStrBytes p.address ++
  asciiBytes ",\"timestamp\":" ++ natDigits p.timestamp ++
  asciiBytes "\x7d"

/-- `JSON.stringify({...payload, text: original.slice(0, mid)})`: the
candidate probed by the binary search at prefix length `mid` (in UTF-16
code units, as `String.prototype.slice` counts).  Spreading `payload` and
overriding `text` keeps the original key order. -/
def candJson (p : NotePayload) (mid : Nat) : List Nat :=
  serializePayload { p with text := p.text.take mid }

/-- `Math.floor((low + high) / 2)`.  Inside the loop `low ≤ high`, so both
operands are nonnegative and integer division is the floor. -/
def midOf (low : Nat) (high : Int) : Nat := (((low : Int) + high) / 2).toNat

/-- The `while (low <= high)` binary-search loop of `buildMessageJson`
(`src/server.js` lines 107-119).  `low` starts at `0` and is only ever
reassigned to `mid + 1`, so it is a natural number; `high` can reach `-1`,
so it is an integer.  `best` is the last fitting candidate (initially `""`,
i.e. `none`).  The loop is embedded with an explicit fuel parameter so that
it is structurally recursive: every iteration strictly decreases
`high + 1 - low`, so with fuel `≥ (high + 1 - low).toNat` (as at the call
site in `buildMessageJson`) the fuel-exhausted branch is reached only when
`low > high`, where the `while` guard exits anyway; all theorems below
assume exactly this. -/
def bmLoop (p : NotePayload) (maxBytes : Nat) :
    Nat → Nat → Int → Option (List Nat) → Option (List Nat)
  | 0, _, _, best => best
  | fuel + 1, low, high, best =>
    if (low : Int) ≤ high then
      if (candJson p (midOf low high)).length ≤ maxBytes then
        bmLoop p maxBytes fuel (midOf low high + 1) high (some (candJson p (midOf low high)))
      else
        bmLoop p maxBytes fuel low ((midOf low high : Int) - 1) best
    else best

/-- `buildMessageJson(payload, maxBytes)` (`src/server.js` 96-124): return
the full serialization if it fits in `maxBytes` UTF-8 bytes, otherwise
binary-search the longest fitting `slice` prefix of `payload.text`;
`none` models the `throw new Error("JSONが1023バイトに収まりません")`
taken when no candidate was ever recorded in `best`.  The loop fuel is the
initial value of `high + 1 - low`, which bounds the iteration count. -/
def buildMessageJson (p : NotePayload) (maxBytes : Nat) : Option (List Nat) :=
  if (serializePayload p).length ≤ maxBytes then some (serializePayload p)
  else bmLoop p maxBytes (p.text.length + 1) 0 (p.text.length : Int) none

/-! ## Length structure of the serialized payload -/

/-- Texts whose code units include no surrogates: every unit is one
character, so every `slice` prefix is character-aligned and the serialized
length is monotone in the prefix length. -/
def noSurrogate (t : List Nat) : Prop := ∀ c ∈ t, c < 55296 ∨ 57344 ≤ c

instance (t : List Nat) : Decidable (noSurrogate t) :=
  inferInstanceAs (Decidable (∀ c ∈ t, c < 55296 ∨ 57344 ≤ c))

lemma noSurrogate_take (t : List Nat) (h : noSurrogate t) (k : Nat) :
    noSurrogate (t.take k) :=
  fun c hc => h c (List.take_subset k t hc)

lemma escUnits_eq_flatten (t : List Nat) (h : noSurrogate t) :
    escUnits t = (t.map escUnit).flatten := by
  induction t with
  | nil => rfl
  | cons c rest ih =>
    have hc := h c (List.mem_cons_self c rest)
    have hrest : noSurrogate rest := fun x hx => h x (List.mem_cons_of_mem c hx)
    have hcond : ¬ (55296 ≤ c ∧ c < 56320) := by omega
    cases rest with
    | nil => simp [escUnits, hcond]
    | cons c2 rest2 =>
      simp only [escUnits, hcond, if_false, List.map_cons, List.flatten_cons]
      rw [ih hrest]
      simp [escUnits]

lemma serializePayload_text_length (p : NotePayload) (t : List Nat) :
    (serializePayload { p with text := t }).length
      = (serializePayload { p with text := [] }).length + (escUnits t).length := by
  simp only [serializePayload, serializeString, escUnits, List.append_assoc,
    List.length_append, List.length_cons, List.length_nil]
  omega

lemma sum_take_le_sum (l : List Nat) (n : Nat) : (l.take n).sum ≤ l.sum := by
  conv_rhs => rw [← List.take_append_drop n l]
  rw [List.sum_append]
  omega

lemma escUnits_take_length_mono (t : List Nat) (h : noSurrogate t)
    {j k : Nat} (hjk : j ≤ k) :
    (escUnits (t.take j)).length ≤ (escUnits (t.take k)).length := by
  rw [escUnits_eq_flatten _ (noSurrogate_take t h j),
    escUnits_eq_flatten _ (noSurrogate_take t h k),
    List.length_flatten, List.length_flatten]
  rw [List.map_take, List.map_take, List.map_take, List.map_take]
  have h1 : (List.take j (List.map List.length (List.map escUnit t)))
      = List.take j (List.take k (List.map List.length (List.map escUnit t))) := by
    rw [List.take_take]
    congr 1
    omega
  rw [h1]
  exact sum_take_le_sum _ j

/-- With a surrogate-free text, the candidate length is monotone in the
prefix length: the monotonicity assumption the binary search relies on. -/
lemma candJson_length_mono (p : NotePayload) (h : noSurrogate p.text)
    {j k : Nat} (hjk : j ≤ k) :
    (candJson p j).length ≤ (candJson p k).length := by
  unfold candJson
  rw [serializePayload_text_length p (p.text.take j),
    serializePayload_text_length p (p.text.take k)]
  have := escUnits_take_length_mono p.text h hjk
  omega

/-- The empty-text candidate is never longer than any other candidate
(no monotonicity needed: the text contributes nonnegative bytes). -/
lemma candJson_zero_le (p : NotePayload) (k : Nat) :
    (candJson p 0).length ≤ (candJson p k).length := by
  unfold candJson
  rw [serializePayload_text_length p (p.text.take 0),
    serializePayload_text_length p (p.text.take k)]
  have h0 : (escUnits (p.text.take 0)).length = 0 := rfl
  omega

/-- The candidate at the full text length is the full serialization. -/
lemma candJson_full (p : NotePayload) : candJson p p.text.length = serializePayload p := by
  unfold candJson
  rw [List.take_length]

/-! ## Correctness of the binary-search loop -/

/-- Soundness of the loop, with no assumption on the text: provided the fuel
covers the remaining interval, the result is `none` or a fitting candidate
(`best` is only ever updated to a candidate whose byte length fits). -/
lemma bmLoop_sound (p : NotePayload) (maxB : Nat) :
    ∀ (n low : Nat) (high : Int) (best : Option (List Nat)),
      (high + 1 - (low : Int)).toNat ≤ n →
      high ≤ (p.text.length : Int) →
      (∀ c, best = some c →
        ∃ k, k ≤ p.text.length ∧ c = candJson p k ∧ (candJson p k).length ≤ maxB) →
      (bmLoop p maxB n low high best = none ∨
        ∃ k, k ≤ p.text.length ∧ bmLoop p maxB n low high best = some (candJson p k) ∧
          (candJson p k).length ≤ maxB) := by
  intro n
  induction n with
  | zero =>
    intro low high best _ _ hbest
    cases best with
    | none => exact Or.inl rfl
    | some c =>
      obtain ⟨k, hk1, hk2, hk3⟩ := hbest c rfl
      exact Or.inr ⟨k, hk1, by rw [bmLoop, hk2], hk3⟩
  | succ n ih =>
    intro low high best hn hhigh hbest
    rw [bmLoop]
    split
    · rename_i h
      split
      · rename_i hfit
        refine ih (midOf low high + 1) high (some (candJson p (midOf low high))) ?_ hhigh ?_
        · simp only [midOf]
          omega
        · intro c hc
          refine ⟨midOf low high, ?_, (Option.some.inj hc).symm, hfit⟩
          simp only [midOf]
          omega
      · rename_i hfit
        refine ih low ((midOf low high : Int) - 1) best ?_ ?_ hbest
        · simp only [midOf]
          omega
        · simp only [midOf]
          omega
    · cases best with
      | none => exact Or.inl rfl
      | some c =>
        obtain ⟨k, hk1, hk2, hk3⟩ := hbest c rfl
        exact Or.inr ⟨k, hk1, by rw [hk2], hk3⟩

/-- Full correctness of the loop for a monotone (surrogate-free) text:
provided the fuel covers the remaining interval and the loop invariants
hold, the loop returns the best candidate overall — `none` exactly when no
prefix fits, otherwise a fitting candidate no fitting prefix exceeds. -/
lemma bmLoop_max (p : NotePayload) (maxB : Nat) (hns : noSurrogate p.text) :
    ∀ (n low : Nat) (high : Int) (best : Option (List Nat)),
      (high + 1 - (low : Int)).toNat ≤ n →
      high ≤ (p.text.length : Int) →
      (low : Int) ≤ high + 1 →
      (∀ m : Nat, m ≤ p.text.length → (candJson p m).length ≤ maxB → (m : Int) ≤ high) →
      (best = none → low = 0) →
      (∀ c, best = some c →
        1 ≤ low ∧ c = candJson p (low - 1) ∧ (candJson p (low - 1)).length ≤ maxB) →
      ((bmLoop p maxB n low high best = none ∧
          ∀ m : Nat, m ≤ p.text.length → ¬ (candJson p m).length ≤ maxB) ∨
        (∃ k, k ≤ p.text.length ∧ bmLoop p maxB n low high best = some (candJson p k) ∧
          (candJson p k).length ≤ maxB ∧
          ∀ m : Nat, m ≤ p.text.length → (candJson p m).length ≤ maxB → m ≤ k)) := by
  intro n
  induction n with
  | zero =>
    intro low high best hn hhigh hlow2 hI1 hnone hsome
    cases best with
    | none =>
      refine Or.inl ⟨rfl, fun m hm hfit => ?_⟩
      have hh := hI1 m hm hfit
      have h0 := hnone rfl
      omega
    | some c =>
      obtain ⟨h1, h2, h3⟩ := hsome c rfl
      refine Or.inr ⟨low - 1, by omega, by rw [bmLoop, h2], h3, fun m hm hfit => ?_⟩
      have hh := hI1 m hm hfit
      omega
  | succ n ih =>
    intro low high best hn hhigh hlow2 hI1 hnone hsome
    rw [bmLoop]
    split
    · rename_i h
      split
      · rename_i hfit
        refine ih (midOf low high + 1) high (some (candJson p (midOf low high)))
          ?_ hhigh ?_ hI1 ?_ ?_
        · simp only [midOf]
          omega
        · simp only [midOf]
          omega
        · intro habs
          exact Option.noConfusion habs
        · intro c hc
          have hceq := Option.some.inj hc
          have hstep : midOf low high + 1 - 1 = midOf low high := by omega
          rw [hstep]
          exact ⟨by omega, hceq.symm, hfit⟩
      · rename_i hfit
        refine ih low ((midOf low high : Int) - 1) best ?_ ?_ ?_ ?_ hnone hsome
        · simp only [midOf]
          omega
        · simp only [midOf]
          omega
        · simp only [midOf]
          omega
        · intro m hm hfit2
          by_contra hgt
          have hmm : midOf low high ≤ m := by omega
          exact hfit (le_trans (candJson_length_mono p hns hmm) hfit2)
    · rename_i h
      cases best with
      | none =>
        refine Or.inl ⟨rfl, fun m hm hfit => ?_⟩
        have hh := hI1 m hm hfit
        have h0 := hnone rfl
        omega
      | some c =>
        obtain ⟨h1, h2, h3⟩ := hsome c rfl
        refine Or.inr ⟨low - 1, by omega, by rw [h2], h3, fun m hm hfit => ?_⟩
        have hh := hI1 m hm hfit
        omega

/-! ## Behaviour of `buildMessageJson` -/

/-- When the full payload fits the budget it is returned unmodified
(the early-return branch of `buildMessageJson`). -/
lemma buildMessageJson_of_fits (p : NotePayload) (B : Nat)
    (h : (serializePayload p).length ≤ B) :
    buildMessageJson p B = some (serializePayload p) := by
  unfold buildMessageJson
  rw [if_pos h]

/-- Soundness: any produced result is the serialization of the payload with
`text` replaced by one of its `slice` prefixes, and fits the budget. -/
lemma buildMessageJson_sound (p : NotePayload) (B : Nat) (r : List Nat)
    (h : buildMessageJson p B = some r) :
    r.length ≤ B ∧ ∃ k, k ≤ p.text.length ∧ r = candJson p k := by
  unfold buildMessageJson at h
  by_cases hfull : (serializePayload p).length ≤ B
  · rw [if_pos hfull] at h
    have hr := Option.some.inj h
    refine ⟨by rw [← hr]; exact hfull, p.text.length, le_refl _, ?_⟩
    rw [← hr, candJson_full]
  · rw [if_neg hfull] at h
    rcases bmLoop_sound p B (p.text.length + 1) 0 (p.text.length : Int) none
        (by omega) (by omega) (fun c hc => Option.noConfusion hc) with hnone | ⟨k, hk1, hk2, hk3⟩
    · rw [hnone] at h
      exact Option.noConfusion h
    · rw [hk2] at h
      have hkr := Option.some.inj h
      exact ⟨by rw [← hkr]; exact hk3, k, hk1, hkr.symm⟩

/-- When even the empty-text serialization exceeds the budget, the function
throws (returns `none`): no candidate is ever recorded in `best`. -/
lemma buildMessageJson_err (p : NotePayload) (B : Nat)
    (h : B < (candJson p 0).length) :
    buildMessageJson p B = none := by
  have hall : ∀ k, ¬ (candJson p k).length ≤ B := fun k hk =>
    absurd (le_trans (candJson_zero_le p k) hk) (by omega)
  unfold buildMessageJson
  have hfull : ¬ (serializePayload p).length ≤ B := by
    rw [← candJson_full p]
    exact hall _
  rw [if_neg hfull]
  rcases bmLoop_sound p B (p.text.length + 1) 0 (p.text.length : Int) none
      (by omega) (by omega) (fun c hc => Option.noConfusion hc) with hnone | ⟨k, _, hk2, hk3⟩
  · exact hnone
  · exact absurd hk3 (hall k)

/-- Maximality for surrogate-free texts: when the full payload overflows,
`buildMessageJson` either throws with no prefix fitting at all, or returns
the serialization at a prefix length that no fitting prefix exceeds. -/
lemma buildMessageJson_max (p : NotePayload) (B : Nat) (hns : noSurrogate p.text)
    (hover : ¬ (serializePayload p).length ≤ B) :
    (buildMessageJson p B = none ∧
      ∀ m : Nat, m ≤ p.text.length → ¬ (candJson p m).length ≤ B) ∨
    (∃ k, k ≤ p.text.length ∧ buildMessageJson p B = some (candJson p k) ∧
      (candJson p k).length ≤ B ∧
      ∀ m : Nat, m ≤ p.text.length → (candJson p m).length ≤ B → m ≤ k) := by
  unfold buildMessageJson
  rw [if_neg hover]
  exact bmLoop_max p B hns (p.text.length + 1) 0 (p.text.length : Int) none
    (by omega) (by omega) (by omega)
    (fun m hm _ => by omega)
    (fun _ => rfl)
    (fun c hc => Option.noConfusion hc)

/-! ## Claims C1, C7, C8 about the MessageEncoder -/

/-- Claim C1 (amended).  The claim as frozen fails on the code (see
`buildMessageJson_misses_longer_prefix_cex`): `original.slice(0, mid)`
slices UTF-16 code units, so a probe can cut inside a surrogate pair, the
lone surrogate serializes as a 6-byte `\udXXX` escape while the completed
pair takes only 4 bytes, serialized length is not monotone in prefix
length, and the binary search can miss a strictly longer fitting prefix.
Amended claim: for a text free of surrogate code units (where every
prefix is character-aligned and length is monotone), if the full
serialization exceeds the budget `B` but some prefix fits, then
`buildMessageJson` returns the serialization of the payload with `text`
replaced by a prefix that fits `B` and that no fitting prefix strictly
exceeds. -/
theorem buildMessageJson_maximal_prefix (p : NotePayload) (B : Nat)
    (hns : noSurrogate p.text)
    (hover : B < (serializePayload p).length)
    (hfit0 : (candJson p 0).length ≤ B) :
    ∃ k, k ≤ p.text.length ∧ buildMessageJson p B = some (candJson p k) ∧
      (candJson p k).length ≤ B ∧ noSurrogate (p.text.take k) ∧
      ∀ m : Nat, m ≤ p.text.length → (candJson p m).length ≤ B → m ≤ k := by
  rcases buildMessageJson_max p B hns (by omega) with ⟨_, hall⟩ | ⟨k, h1, h2, h3, h4⟩
  · exact absurd hfit0 (hall 0 (Nat.zero_le _))
  · exact ⟨k, h1, h2, h3, noSurrogate_take p.text hns k, h4⟩

/-- Payload used to refute claim C1: `userId` `"u"`, no location, and the
text `"aaaaa😀zzzz"` (code units `[97 ×5, 55357, 56832, 122 ×4]`; the
emoji is the surrogate pair `55357, 56832`). -/
def pCex : NotePayload :=
  { userId := [117], text := [97, 97, 97, 97, 97, 55357, 56832, 122, 122, 122, 122],
    lat := none, lon := none, address := none, timestamp := 0 }

/-- Claim C1 counterexample.  With budget `84`, the full serialization of
`pCex` is 88 bytes, so the binary search runs; it probes prefix length 6
(cutting inside the surrogate pair, a 6-byte lone-surrogate escape, 86
bytes, over budget) and therefore discards the whole range above, settling
on prefix length 5 — yet the character-aligned prefix of length 7 (ending
with the complete emoji, 4 UTF-8 bytes) serializes to 84 bytes and also
fits.  The returned prefix is not maximal: a strictly longer
character-aligned prefix also fits, refuting the claim as stated. -/
theorem buildMessageJson_misses_longer_prefix_cex :
    84 < (serializePayload pCex).length ∧
    buildMessageJson pCex 84 = some (candJson pCex 5) ∧
    (candJson pCex 7).length ≤ 84 ∧
    7 ≤ pCex.text.length ∧
    pCex.text.take 7 = [97, 97, 97, 97, 97, 55357, 56832] := by decide

/-- Surrogate-free payload (`userId` `"u"`, text of twenty `'a'`,
no location) used to instantiate the encoder theorems. -/
def pW : NotePayload :=
  { userId := [117],
    text := [97, 97, 97, 97, 97, 97, 97, 97, 97, 97,
             97, 97, 97, 97, 97, 97, 97, 97, 97, 97],
    lat := none, lon := none, address := none, timestamp := 0 }

/-- Witness for the amended claim C1, at `pW` with budget 85 (full
serialization is 95 bytes). -/
theorem buildMessageJson_maximal_prefix_witness :
    ∃ k, k ≤ pW.text.length ∧ buildMessageJson pW 85 = some (candJson pW k) ∧
      (candJson pW k).length ≤ 85 ∧ noSurrogate (pW.text.take k) ∧
      ∀ m : Nat, m ≤ pW.text.length → (candJson pW m).length ≤ 85 → m ≤ k :=
  buildMessageJson_maximal_prefix pW 85 (by decide) (by decide) (by decide)

/-- Claim C7 (confirmed).  Every result the encoder returns fits the byte
budget and is the serialization of the same payload with `text` replaced
by one of its prefixes (same fields, same structural schema); and when
even the empty-text serialization exceeds the budget, the encoder throws
(`none`) rather than returning anything. -/
theorem buildMessageJson_bounded_schema_or_error :
    (∀ (p : NotePayload) (B : Nat) (r : List Nat), buildMessageJson p B = some r →
      r.length ≤ B ∧
      ∃ k, k ≤ p.text.length ∧ r = serializePayload { p with text := p.text.take k }) ∧
    (∀ (p : NotePayload) (B : Nat),
      B < (serializePayload { p with text := [] }).length → buildMessageJson p B = none) := by
  constructor
  · intro p B r h
    exact buildMessageJson_sound p B r h
  · intro p B h
    exact buildMessageJson_err p B h

/-- Witness for claim C7: a returned result at `pW` with budget 85, and the
throw at budget 3 (smaller than the 75-byte empty-text serialization). -/
theorem buildMessageJson_bounded_schema_or_error_witness :
    ((candJson pW 10).length ≤ 85 ∧
      ∃ k, k ≤ pW.text.length ∧
        candJson pW 10 = serializePayload { pW with text := pW.text.take k }) ∧
    buildMessageJson pW 3 = none :=
  ⟨buildMessageJson_bounded_schema_or_error.1 pW 85 (candJson pW 10) (by decide),
   buildMessageJson_bounded_schema_or_error.2 pW 3 (by decide)⟩

/-- Claim C8 (confirmed).  A payload whose full serialization fits the
budget is returned unmodified; and the encoder is idempotent: every
returned result is the full serialization of a payload (the original with
its text truncated) on which the encoder, at the same budget, returns the
same result unchanged. -/
theorem buildMessageJson_within_budget_idem :
    (∀ (p : NotePayload) (B : Nat), (serializePayload p).length ≤ B →
      buildMessageJson p B = some (serializePayload p)) ∧
    (∀ (p : NotePayload) (B : Nat) (r : List Nat), buildMessageJson p B = some r →
      ∃ q : NotePayload, r = serializePayload q ∧ buildMessageJson q B = some r) := by
  constructor
  · intro p B h
    exact buildMessageJson_of_fits p B h
  · intro p B r h
    obtain ⟨hlen, k, _, hr⟩ := buildMessageJson_sound p B r h
    refine ⟨{ p with text := p.text.take k }, hr, ?_⟩
    have h2 : serializePayload { p with text := p.text.take k } = r := hr.symm
    have h3 := buildMessageJson_of_fits { p with text := p.text.take k } B
      (by rw [h2]; exact hlen)
    rw [h3, h2]

/-- Witness for claim C8: the 95-byte `pW` serialization is returned
unmodified at budget 100, and re-encoding the truncated result of budget
85 returns it unchanged. -/
theorem buildMessageJson_within_budget_idem_witness :
    buildMessageJson pW 100 = some (serializePayload pW) ∧
    ∃ q : NotePayload, candJson pW 10 = serializePayload q ∧
      buildMessageJson q 85 = some (candJson pW 10) :=
  ⟨buildMessageJson_within_budget_idem.1 pW 100 (by decide),
   buildMessageJson_within_budget_idem.2 pW 85 (candJson pW 10) (by decide)⟩

/-! ## String helpers for the webhook / announce models

Here plain `String` is used: none of the remaining claims depend on
code-unit-level slicing, only on character-level checks, and the
characters involved are BMP. -/

/-- Does `hay` start with `needle` (character lists)? -/
def startsWithCh : List Char → List Char → Bool
  | [], _ => true
  | _ :: _, [] => false
  | a :: as, b :: bs => a = b && startsWithCh as bs

/-- Does `hay` contain `needle` as a contiguous run (character lists)? -/
def containsCh (needle : List Char) : List Char → Bool
  | [] => startsWithCh needle []
  | c :: rest => startsWithCh needle (c :: rest) || containsCh needle rest

/-- `String.prototype.toLowerCase` restricted to ASCII case mapping (the
only case mapping relevant to the `"note:"` and `"pushed"` checks). -/
def lowerStr (s : String) : String := String.mk (s.toList.map Char.toLower)

/-- `s.slice(0, n)` on a string used at character granularity. -/
def strTake (s : String) (n : Nat) : String := String.mk (s.toList.take n)

/-- `s.slice(n)` on a string used at character granularity. -/
def strDrop (s : String) (n : Nat) : String := String.mk (s.toList.drop n)

/-- `/pushed/i.test(s)`: `s` contains `"pushed"` case-insensitively. -/
def pushedTest (s : String) : Bool := containsCh "pushed".toList (lowerStr s).toList

/-! ## Announce classification (claim C3)

`src/api/webhook.js` lines 125-156 and `src/netlify/functions/webhook.js`
lines 104-146: the `PUT {NODE_URL}/transactions` call runs under an
`AbortController` whose timer fires after 8000 ms; the network outcome is
modelled as an abstract `FetchOutcome`, and the code's classification of it
into a returned explorer URL or a thrown error message is embedded as a
pure function.  The real-time mechanics of the abort (timer firing,
cancelling the in-flight request) are outside this functional model; what
is modelled is which outcome class each result is reported as. -/

/-- A node HTTP response: status, raw body text, and the result of
`JSON.parse(text)` — `none` when parsing throws, `some m` for an object
whose `message` field is `m` (`none` = field absent). -/
structure NodeResponse where
  status : Nat
  text : String
  parsed : Option (Option String)
deriving DecidableEq, Repr

/-- Outcome of the `fetch` call: a response, a transport error (connection
refused, DNS, reset — `fetch` rejects with an error carrying `msg`), or the
abort fired by the 8-second timer (`fetch` rejects with an `AbortError`). -/
inductive FetchOutcome
  | ok (res : NodeResponse)
  | transportError (msg : String)
  | abortTimeout
deriving DecidableEq, Repr

/-- The `message` of Node's `AbortError` (what `err.message` holds when the
8 s controller fires; a modelled constant). -/
def abortErrMsg : String := "This operation was aborted"

/-- The `message` of the `JSON.parse` error on a non-JSON body (a modelled
constant standing for the engine's parse-error text; the code only
concatenates it). -/
def jsonParseErrorText : String := "Unexpected token"

/-- `parsed.message || ''` (an absent field behaves as the empty string). -/
def messageOrEmpty : Option String → String
  | none => ""
  | some s => s

/-- Template-literal interpolation `${parsed.message}`: an absent field
prints as `"undefined"`. -/
def msgInterp : Option String → String
  | none => "undefined"
  | some s => s

/-- Announce classification of `src/api/webhook.js` (lines 142-156): any
`fetch` rejection — including the abort fired by the 8 s timer — is
rethrown as `fetch-failed: <err.message>`; a non-2xx response throws
`announce failed: <status> <text>`; a 2xx response has its body parsed, and
both a parse error and the inner `announce failed: <message>` rejection are
wrapped by the same `catch` into `announce parse failed: ...`. -/
def apiAnnounce (o : FetchOutcome) (url : String) : Except String String :=
  match o with
  | .abortTimeout => .error ("fetch-failed: " ++ abortErrMsg)
  | .transportError m => .error ("fetch-failed: " ++ m)
  | .ok res =>
    if res.status < 200 ∨ 300 ≤ res.status then
      .error ("announce failed: " ++ toString res.status ++ " " ++ res.text)
    else
      match res.parsed with
      | none => .error ("announce parse failed: " ++ jsonParseErrorText)
      | some m =>
        if pushedTest (messageOrEmpty m) then .ok url
        else .error ("announce parse failed: " ++ ("announce failed: " ++ msgInterp m))

/-- Announce classification of `src/netlify/functions/webhook.js` (lines
124-146): identical except that an `AbortError` is recognized by name and
rethrown as a distinct `timeout: ...` error, and the non-2xx message
truncates the body to 100 characters. -/
def netlifyAnnounce (o : FetchOutcome) (url : String) : Except String String :=
  match o with
  | .abortTimeout => .error "timeout: Symbol node did not respond within 8s"
  | .transportError m => .error ("fetch-failed: " ++ m)
  | .ok res =>
    if res.status < 200 ∨ 300 ≤ res.status then
      .error ("announce failed: " ++ toString res.status ++ " " ++ strTake res.text 100)
    else
      match res.parsed with
      | none => .error ("announce parse failed: " ++ jsonParseErrorText)
      | some m =>
        if pushedTest (messageOrEmpty m) then .ok url
        else .error ("announce parse failed: " ++ ("announce failed: " ++ msgInterp m))

/-- Claim C3 counterexample.  In `src/api/webhook.js` (one of the two
cited revisions) the timeout is not classified as a distinct Timeout: the
abort raised by the 8 s timer is caught by the same `catch (err)` as any
transport error and rethrown as `fetch-failed: ...`, so the timeout
outcome is byte-identical to a transport-failure outcome. -/
theorem apiAnnounce_timeout_conflated_cex :
    apiAnnounce .abortTimeout "u" = .error ("fetch-failed: " ++ abortErrMsg) ∧
    apiAnnounce .abortTimeout "u" = apiAnnounce (.transportError abortErrMsg) "u" := by
  exact ⟨rfl, rfl⟩

/-- Two error strings with distinct ASCII first characters are distinct
whatever their tails. -/
lemma error_ne_of_head (a b : String) (s t : String)
    (ha : a.data.head? = some 'a') (hb : b.data.head? = some 't' ∨ b.data.head? = some 'f') :
    (Except.error (a ++ s) : Except String String) ≠ .error (b ++ t) := by
  intro h
  have h2 : (a ++ s).data = (b ++ t).data := by
    have := Except.error.inj h
    rw [this]
  rw [String.data_append, String.data_append] at h2
  cases hha : a.data with
  | nil => rw [hha] at ha; simp at ha
  | cons x xs =>
    rw [hha] at ha h2
    simp at ha
    cases hhb : b.data with
    | nil => rw [hhb] at hb; simp at hb
    | cons y ys =>
      rw [hhb] at hb h2
      simp at hb h2
      rcases hb with hb | hb <;> (subst ha; subst hb; simp at h2)

/-- Claim C3 (amended).  The claim as frozen fails on `src/api/webhook.js`
(see `apiAnnounce_timeout_conflated_cex`): there the timeout surfaces as
the same `fetch-failed` class as a transport error.  Amended claim: in the
netlify revision the outcomes are classified as stated — 2xx with a body
message matching `pushed` case-insensitively is accepted, 2xx with a
different message is rejected with the node's reason preserved (inside the
`announce parse failed:` wrapper produced by the shared `catch`), a
transport error and the timeout yield distinct `fetch-failed:` /
`timeout:` errors — and in both revisions a timeout is never classified as
a rejection. -/
theorem announce_classification (res : NodeResponse) (url : String) (m : Option String)
    (h2a : 200 ≤ res.status) (h2b : res.status ≤ 299) (hp : res.parsed = some m) :
    (pushedTest (messageOrEmpty m) = true → netlifyAnnounce (.ok res) url = .ok url) ∧
    (pushedTest (messageOrEmpty m) = false →
      netlifyAnnounce (.ok res) url =
        .error ("announce parse failed: " ++ ("announce failed: " ++ msgInterp m))) ∧
    (∀ tm, netlifyAnnounce (.transportError tm) url = .error ("fetch-failed: " ++ tm)) ∧
    netlifyAnnounce .abortTimeout url = .error "timeout: Symbol node did not respond within 8s" ∧
    (pushedTest (messageOrEmpty m) = false →
      netlifyAnnounce (.ok res) url ≠ netlifyAnnounce .abortTimeout url) ∧
    (pushedTest (messageOrEmpty m) = false →
      apiAnnounce (.ok res) url ≠ apiAnnounce .abortTimeout url) := by
  have hcond : ¬ (res.status < 200 ∨ 300 ≤ res.status) := by omega
  refine ⟨?_, ?_, fun tm => rfl, rfl, ?_, ?_⟩
  · intro hpush
    simp [netlifyAnnounce, hcond, hp, hpush]
  · intro hpush
    simp [netlifyAnnounce, hcond, hp, hpush]
  · intro hpush
    have h1 : netlifyAnnounce (.ok res) url =
        .error ("announce parse failed: " ++ ("announce failed: " ++ msgInterp m)) := by
      simp [netlifyAnnounce, hcond, hp, hpush]
    rw [h1]
    have h2 : ("timeout: Symbol node did not respond within 8s" : String) =
        "t" ++ "imeout: Symbol node did not respond within 8s" := rfl
    simp only [netlifyAnnounce, h2]
    exact error_ne_of_head "announce parse failed: " "t" _ _ rfl (Or.inl rfl)
  · intro hpush
    have h1 : apiAnnounce (.ok res) url =
        .error ("announce parse failed: " ++ ("announce failed: " ++ msgInterp m)) := by
      simp [apiAnnounce, hcond, hp, hpush]
    rw [h1]
    simp only [apiAnnounce]
    exact error_ne_of_head "announce parse failed: " "fetch-failed: " _ _ rfl (Or.inr rfl)

/-- Witness for the amended claim C3, at a concrete accepted response. -/
theorem announce_classification_witness :
    netlifyAnnounce (.ok ⟨200, "x", some (some "packet 9 was pushed to the network")⟩) "u" =
      .ok "u" ∧
    apiAnnounce (.ok ⟨200, "y", some (some "Failure_Core_Invalid_Signature")⟩) "u" ≠
      apiAnnounce .abortTimeout "u" :=
  ⟨(announce_classification ⟨200, "x", some (some "packet 9 was pushed to the network")⟩
      "u" (some "packet 9 was pushed to the network") (by decide) (by decide) rfl).1 (by decide),
   (announce_classification ⟨200, "y", some (some "Failure_Core_Invalid_Signature")⟩
      "u" (some "Failure_Core_Invalid_Signature") (by decide) (by decide) rfl).2.2.2.2.2 (by decide)⟩

/-! ## Signed payload normalization and the announce body (claim C2)

`src/api/webhook.js` lines 103-121 normalize the result of
`facade.transactionFactory.static.attachSignature(tx, signature)` to a
clean hex string — unwrap an object's `payload` field, unwrap a JSON
string's `payload` field — then throw unless the value is a string free of
`{`, and announce `JSON.stringify({ payload: payloadHex })`.
`src/unnamed/part_004` lines 101-142 do the same unwrapping (as
`if`/`else if`) but have no clean-hex guard and announce the normalized
value itself as the request body (`body: payloadHex`), not a
`{payload: ...}` object. -/

/-- The `{` character. -/
def braceChar : Char := Char.ofNat 123

/-- `s.includes('{')`. -/
def jsIncludesBrace (s : String) : Bool := containsCh [braceChar] s.toList

/-- The shapes `attachSignature` can return, together with the JSON-parse
view the code needs: a JS object with an optional string `payload` field; a
string not starting with `{`; a string starting with `{` that parses to an
object with optional string `payload`; a string starting with `{` that does
not parse.  Strings sitting inside a `payload` field are taken to be
non-JSON themselves (a doubly-nested `payload` is outside this model). -/
inductive AttachOut
  | objPayload (p : Option String)
  | strPlain (s : String)
  | strJson (s : String) (payload : Option String)
  | strJsonBad (s : String)
deriving DecidableEq, Repr

/-- The normalization and clean-hex guard of `src/api/webhook.js` lines
106-115: unwrap a truthy object `payload` field; unwrap a parsed JSON
string's truthy `payload` field (a parse failure is swallowed); then throw
(`none`) unless the value is a string not containing `{`. -/
def apiNormalizePayload : AttachOut → Option String
  | .objPayload none => none
  | .objPayload (some s) =>
    if s = "" then none
    else if jsIncludesBrace s then none else some s
  | .strPlain s => if jsIncludesBrace s then none else some s
  | .strJson s pl =>
    match pl with
    | some q =>
      if q = "" then (if jsIncludesBrace s then none else some s)
      else if jsIncludesBrace q then none else some q
    | none => if jsIncludesBrace s then none else some s
  | .strJsonBad s => if jsIncludesBrace s then none else some s

/-- One JSON string-escape step for `JSON.stringify` at character level. -/
def jsonEscChar (c : Char) : List Char :=
  if c = '"' then [Char.ofNat 92, '"']
  else if c = Char.ofNat 92 then [Char.ofNat 92, Char.ofNat 92]
  else if c = Char.ofNat 8 then [Char.ofNat 92, 'b']
  else if c = Char.ofNat 9 then [Char.ofNat 92, 't']
  else if c = Char.ofNat 10 then [Char.ofNat 92, 'n']
  else if c = Char.ofNat 12 then [Char.ofNat 92, 'f']
  else if c = Char.ofNat 13 then [Char.ofNat 92, 'r']
  else if c.toNat < 32 then
    [Char.ofNat 92, 'u', '0', '0', Char.ofNat (hexDigit (c.toNat / 16)), Char.ofNat (hexDigit (c.toNat % 16))]
  else [c]

/-- A JSON string literal at character level. -/
def jsonQuote (s : String) : String :=
  "\"" ++ String.mk ((s.toList.map jsonEscChar).flatten) ++ "\""

/-- `JSON.stringify({ payload: h })`. -/
def stringifyPayloadObj (h : String) : String :=
  "\x7b\"payload\":" ++ jsonQuote h ++ "\x7d"

/-- The announce request body of `src/api/webhook.js` (line 121):
`JSON.stringify({ payload: payloadHex })` after a successful
normalization, `none` when the clean-hex guard throws. -/
def apiAnnounceBody (r : AttachOut) : Option String :=
  (apiNormalizePayload r).map stringifyPayloadObj

/-- The announce request body of `src/unnamed/part_004` (lines 104-142):
the same unwrapping (without any guard) and then `body: payloadHex` —
the normalized value is sent as the body itself.  `none` marks the one
shape where the value is still a JS object and no string body exists. -/
def part004AnnounceBody : AttachOut → Option String
  | .objPayload none => none
  | .objPayload (some s) => if s = "" then none else some s
  | .strPlain s => some s
  | .strJson s pl =>
    match pl with
    | some q => if q = "" then some s else some q
    | none => some s
  | .strJsonBad s => some s

/-- Claim C2: evaluation at the failing input.  When `attachSignature`
returns the JSON string `{"payload":"A1B2C3"}` (the shape the normalizers
in both revisions anticipate), `src/unnamed/part_004` announces the bare
hex `A1B2C3` as the whole request body — not a `{payload: hexString}`
JSON body — and has no guard to raise a SigningError; `src/api/webhook.js`
on the same input announces `{"payload":"A1B2C3"}` as the claim states,
and raises (returns `none`) when no clean hex can be produced. -/
theorem part004_announces_bare_hex :
    part004AnnounceBody (.strJson "\x7b\"payload\":\"A1B2C3\"\x7d" (some "A1B2C3")) =
      some "A1B2C3" ∧
    apiAnnounceBody (.strJson "\x7b\"payload\":\"A1B2C3\"\x7d" (some "A1B2C3")) =
      some "\x7b\"payload\":\"A1B2C3\"\x7d" ∧
    apiAnnounceBody (.objPayload none) = none ∧
    part004AnnounceBody (.strJsonBad "\x7b oops") = some "\x7b oops" ∧
    apiAnnounceBody (.strJsonBad "\x7b oops") = none ∧
    ("A1B2C3" : String) ≠ "\x7b\"payload\":\"A1B2C3\"\x7d" := by decide

/-! ## Webhook event handling and the inbound boundary (claims C5, C6)

`src/api/webhook.js` lines 164-219 (`webhookHandler`) and `src/webhook.js`
lines 93-118 (the Vercel revision's `handler`).  An inbound delivery is
modelled post-parse: a list of events, plus the boundary facts the handler
branches on (HTTP method, whether the required configuration is present,
whether the signature verifies).  The observable effects are the HTTP
status answered at the boundary and the list of pipeline actions (announce
attempts and LINE replies) the background processing performs; the
per-message announce outcome is a parameter, since the status is written
before any processing starts. -/

/-- One entry of `body.events`: `ev.type`, `ev.message?.type`,
`ev.message.text`, `ev.source?.userId`, `ev.replyToken`. -/
structure LineEvent where
  evType : String
  msgType : Option String
  text : String
  userId : Option String
  replyToken : String
deriving DecidableEq, Repr

/-- An observable pipeline action: a `sendToSymbol` announce attempt for a
user and note text, or a `replyLine` call. -/
inductive BotAction
  | announce (userId : String) (note : String)
  | reply (token : String) (msg : String)
deriving DecidableEq, Repr

/-- JavaScript whitespace as relevant here (space, tab, LF, CR, FF, VT). -/
def isJsSpace (c : Char) : Bool :=
  c = ' ' || c = Char.ofNat 9 || c = Char.ofNat 10 || c = Char.ofNat 13 ||
  c = Char.ofNat 12 || c = Char.ofNat 11

/-- `text.trim()` (whitespace stripped from both ends). -/
def jsTrim (s : String) : String :=
  String.mk (((s.toList.dropWhile isJsSpace).reverse.dropWhile isJsSpace).reverse)

/-- `text.toLowerCase().startsWith('note:')`. -/
def startsWithNote (s : String) : Bool := startsWithCh "note:".toList (lowerStr s).toList

/-- Per-event processing of `src/api/webhook.js` lines 186-214: only text
messages are considered; only a trimmed text starting with `note:`
(case-insensitively) is recorded — the marker is sliced off and re-trimmed,
an empty remainder is skipped with no reply — and a qualifying note is
announced, followed by a success reply carrying the explorer URL or a
failure reply carrying the truncated error.  `outcome` is the result of
the `sendToSymbol` attempt. -/
def apiProcessEvent (outcome : Except String String) (ev : LineEvent) : List BotAction :=
  if ev.evType = "message" ∧ ev.msgType = some "text" then
    let userId := ev.userId.getD "unknown"
    let text := jsTrim ev.text
    if startsWithNote text then
      let note := jsTrim (strDrop text 5)
      if note = "" then []
      else
        match outcome with
        | .ok url =>
          [.announce userId note, .reply ev.replyToken ("📝 ブロックチェーンに記録しました\n" ++ url)]
        | .error e =>
          [.announce userId note, .reply ev.replyToken ("⚠️ 送信に失敗: " ++ strTake e 160)]
    else []
  else []

/-- Per-event processing of the Vercel revision `src/webhook.js` lines
105-114: every text message is announced (there is no marker check at
all), followed by a reply. -/
def vercelProcessEvent (outcome : Except String String) (ev : LineEvent) : List BotAction :=
  if ev.evType = "message" ∧ ev.msgType = some "text" then
    match outcome with
    | .ok url =>
      [.announce (ev.userId.getD "unknown") ev.text,
       .reply ev.replyToken ("📝 ブロックチェーンに記録しました\n" ++ url)]
    | .error e =>
      [.announce (ev.userId.getD "unknown") ev.text,
       .reply ev.replyToken ("⚠️ 送信に失敗: " ++ strTake e 120)]
  else []

/-- Claim C5 (amended).  The claim as frozen fails on the cited Vercel
revision (see `vercel_announces_unmarked_cex`).  Amended claim: in the
marker-filtering revisions (the cited `src/api/webhook.js`, and likewise
`server.js` / netlify), a validly delivered text message that does not
start with the `note:` marker produces zero announce attempts and zero
replies; the early Vercel revision `src/webhook.js` instead announces and
replies to every text message. -/
theorem api_ignores_unmarked_text (outcome : Except String String) (ev : LineEvent)
    (h : startsWithNote (jsTrim ev.text) = false) :
    apiProcessEvent outcome ev = [] := by
  unfold apiProcessEvent
  split
  · rw [if_neg (by rw [h]; exact Bool.false_ne_true)]
  · rfl

/-- The unmarked text event used for claims C5 and C6. -/
def evHello : LineEvent :=
  { evType := "message", msgType := some "text", text := "hello",
    userId := some "u1", replyToken := "rt1" }

/-- Witness for the amended claim C5: the api revision performs no action
on the unmarked text `"hello"`, whatever the would-be announce outcome. -/
theorem api_ignores_unmarked_text_witness :
    apiProcessEvent (.ok "https://testnet.symbol.fyi/transactions/H") evHello = [] :=
  api_ignores_unmarked_text (.ok "https://testnet.symbol.fyi/transactions/H") evHello (by decide)

/-- Claim C5 counterexample.  The cited Vercel revision `src/webhook.js`
announces the unmarked text `"hello"` — one announce attempt and one
reply, where the claim requires zero of each.  (`"hello"` carries no
qualifying marker: it starts neither with `note:` nor with `📝`.) -/
theorem vercel_announces_unmarked_cex :
    startsWithNote (jsTrim evHello.text) = false ∧
    startsWithCh "📝".toList (jsTrim evHello.text).toList = false ∧
    vercelProcessEvent (.ok "https://testnet.symbol.fyi/transactions/H") evHello =
      [.announce "u1" "hello",
       .reply "rt1" ("📝 ブロックチェーンに記録しました\n" ++
         "https://testnet.symbol.fyi/transactions/H")] := by decide

/-- The inbound boundary and background pipeline of `src/api/webhook.js`
`webhookHandler` (lines 164-219): non-POST is answered 200 (`'ok'`),
missing configuration 500 before anything else, a failed signature 403
with the body never parsed, and a verified POST is acknowledged 200 before
the events are processed.  The returned pair is (status, actions of the
background processing); `outcomeOf` gives each event's announce outcome. -/
def apiHandler (method : String) (envOk sigOk : Bool)
    (outcomeOf : LineEvent → Except String String) (events : List LineEvent) :
    Nat × List BotAction :=
  if method ≠ "POST" then (200, [])
  else if ¬ envOk then (500, [])
  else if ¬ sigOk then (403, [])
  else (200, (events.map (fun ev => apiProcessEvent (outcomeOf ev) ev)).flatten)

/-- The inbound boundary of the Vercel revision `src/webhook.js` `handler`
(lines 93-101): non-POST is answered 405, there is no configuration check,
a failed signature is 403, and a verified POST is acknowledged 200. -/
def vercelHandler (method : String) (sigOk : Bool)
    (outcomeOf : LineEvent → Except String String) (events : List LineEvent) :
    Nat × List BotAction :=
  if method ≠ "POST" then (405, [])
  else if ¬ sigOk then (403, [])
  else (200, (events.map (fun ev => vercelProcessEvent (outcomeOf ev) ev)).flatten)

/-- Claim C6 counterexample.  The cited Vercel revision answers a non-POST
request with 405, not with the claimed 200 liveness acknowledgement. -/
theorem vercel_non_post_cex :
    (vercelHandler "GET" true (fun _ => .ok "u") []).1 = 405 ∧ (405 : Nat) ≠ 200 := by decide

/-- Claim C6 (amended).  The claim as frozen fails on the cited Vercel
revision (see `vercel_non_post_cex`).  Amended claim: at the boundary of
the cited `src/api/webhook.js` (and likewise netlify), non-POST is
answered 200 with no processing, missing configuration 500 with no
processing, a signature failure 403 with no event inspected or announced,
and a verified POST is acknowledged 200 whatever the downstream pipeline
outcomes; the early Vercel revision instead answers non-POST with 405 and
has no configuration check. -/
theorem api_boundary_codes (method : String) (envOk sigOk : Bool)
    (outcomeOf : LineEvent → Except String String) (events : List LineEvent) :
    (method ≠ "POST" → apiHandler method envOk sigOk outcomeOf events = (200, [])) ∧
    (method = "POST" → envOk = false → apiHandler method envOk sigOk outcomeOf events = (500, [])) ∧
    (method = "POST" → envOk = true → sigOk = false →
      apiHandler method envOk sigOk outcomeOf events = (403, [])) ∧
    (method = "POST" → envOk = true → sigOk = true →
      (apiHandler method envOk sigOk outcomeOf events).1 = 200) := by
  refine ⟨fun h => ?_, fun h he => ?_, fun h he hs => ?_, fun h he hs => ?_⟩
  · simp [apiHandler, h]
  · simp [apiHandler, h, he]
  · simp [apiHandler, h, he, hs]
  · simp [apiHandler, h, he, hs]

/-- Witness for the amended claim C6, exercising all four boundary codes
at concrete requests (including a failing downstream outcome for the
acknowledged POST). -/
theorem api_boundary_codes_witness :
    apiHandler "GET" true true (fun _ => .ok "u") [evHello] = (200, []) ∧
    apiHandler "POST" false true (fun _ => .ok "u") [evHello] = (500, []) ∧
    apiHandler "POST" true false (fun _ => .ok "u") [evHello] = (403, []) ∧
    (apiHandler "POST" true true (fun _ => .error "fetch-failed: x") [evHello]).1 = 200 :=
  ⟨(api_boundary_codes "GET" true true (fun _ => .ok "u") [evHello]).1 (by decide),
   (api_boundary_codes "POST" false true (fun _ => .ok "u") [evHello]).2.1 rfl rfl,
   (api_boundary_codes "POST" true false (fun _ => .ok "u") [evHello]).2.2.1 rfl rfl rfl,
   (api_boundary_codes "POST" true true (fun _ => .error "fetch-failed: x") [evHello]).2.2.2
     rfl rfl rfl⟩

/-! ## The `userLocation` map of `src/server.js` (claim C10)

`src/server.js` line 177 declares `const userLocation = new Map()` keyed by
`ev?.source?.userId` (which can be `undefined`, so keys are
`Option String`); the `/webhook` handler (lines 194-257) is the only code
that touches it: a location message `set`s the sender's entry, and a
successfully announced note message `delete`s it.  No other operation —
in particular no timer or TTL sweep — exists anywhere in the file, so the
map only changes through `serverProcessEvent` below. -/

/-- A stored location: `{ lat, lon, address }`. -/
structure LocEntry where
  lat : Int
  lon : Int
  address : String
deriving DecidableEq, Repr

/-- The `userLocation` map: `userId → entry`. -/
def UserMap := Option String → Option LocEntry

/-- `userLocation.set(userId, v)`. -/
def mapSet (m : UserMap) (k : Option String) (v : LocEntry) : UserMap :=
  fun u => if u = k then some v else m u

/-- `userLocation.delete(userId)`. -/
def mapDelete (m : UserMap) (k : Option String) : UserMap :=
  fun u => if u = k then none else m u

/-- One entry of `body.events` as `server.js` reads it (`ev.message.type`
is only accessed after `ev.type === "message"`; the location fields are
only accessed on a location message). -/
structure ServerEvent where
  evType : String
  msgType : String
  lat : Int
  lon : Int
  address : String
  text : String
  userId : Option String
  replyToken : String
deriving DecidableEq, Repr

/-- `text.startsWith("📝") || text.toLowerCase().startsWith("note:")`. -/
def isNoteMarked (t : String) : Bool :=
  startsWithCh "📝".toList t.toList || startsWithNote t

/-- `text.replace(/^📝/, "").replace(/^note:/i, "").trim()`: both leading
markers are stripped in sequence, then the remainder is trimmed. -/
def stripNoteMarkers (t : String) : String :=
  let t1 := if startsWithCh "📝".toList t.toList then strDrop t 1 else t
  let t2 := if startsWithCh "note:".toList (lowerStr t1).toList then strDrop t1 5 else t1
  jsTrim t2

/-- The effect of one event of the `server.js` `/webhook` handler (lines
194-257) on `userLocation`: a location message overwrites the sender's
entry; a qualifying, non-empty note message deletes the sender's entry
when `sendToSymbol` succeeds (`announceOk`) and leaves the map alone when
it throws; every other event leaves the map alone. -/
def serverProcessEvent (announceOk : Bool) (m : UserMap) (ev : ServerEvent) : UserMap :=
  if ev.evType ≠ "message" then m
  else if ev.msgType = "location" then mapSet m ev.userId ⟨ev.lat, ev.lon, ev.address⟩
  else if ev.msgType ≠ "text" then m
  else
    let t := jsTrim ev.text
    if isNoteMarked t = false then m
    else if stripNoteMarkers t = "" then m
    else if announceOk then mapDelete m ev.userId else m

/-- Claim C10 (confirmed).  The map is mutated only at the sender's key:
every other user's entry is untouched by any event; a location message
inserts or overwrites exactly the sender's entry; a qualifying note whose
announce succeeds deletes the sender's entry; and when the announce fails
(or the event is not a location message at all) the whole map is left in
place.  No expiry path exists: `serverProcessEvent` is the only operation
on the map and takes no time input. -/
theorem userLocation_frame (announceOk : Bool) (m : UserMap) (ev : ServerEvent) :
    (∀ u, u ≠ ev.userId → serverProcessEvent announceOk m ev u = m u) ∧
    (ev.evType = "message" → ev.msgType = "location" →
      serverProcessEvent announceOk m ev ev.userId = some ⟨ev.lat, ev.lon, ev.address⟩) ∧
    (ev.evType = "message" → ev.msgType = "text" →
      isNoteMarked (jsTrim ev.text) = true → stripNoteMarkers (jsTrim ev.text) ≠ "" →
      announceOk = true → serverProcessEvent announceOk m ev ev.userId = none) ∧
    (ev.msgType ≠ "location" → announceOk = false →
      ∀ u, serverProcessEvent announceOk m ev u = m u) := by
  refine ⟨fun u hu => ?_, fun h1 h2 => ?_, fun h1 h2 h3 h4 h5 => ?_, fun hloc hno u => ?_⟩
  · simp only [serverProcessEvent]
    split_ifs <;> simp [mapSet, mapDelete, hu]
  · simp [serverProcessEvent, h1, h2, mapSet]
  · subst h5
    simp [serverProcessEvent, h1, h2, h3, h4, mapDelete]
  · subst hno
    simp only [serverProcessEvent]
    split_ifs <;> simp_all [mapSet, mapDelete]

/-- The location event used to witness claim C10. -/
def evLoc : ServerEvent :=
  { evType := "message", msgType := "location", lat := 35, lon := 139,
    address := "Tokyo", text := "", userId := some "u1", replyToken := "r" }

/-- Witness for claim C10: a location message from `u1` on the empty map
stores exactly `u1`'s entry and leaves `u2` absent. -/
theorem userLocation_frame_witness :
    serverProcessEvent true (fun _ => none) evLoc (some "u1") = some ⟨35, 139, "Tokyo"⟩ ∧
    serverProcessEvent true (fun _ => none) evLoc (some "u2") = none :=
  ⟨(userLocation_frame true (fun _ => none) evLoc).2.1 rfl rfl,
   (userLocation_frame true (fun _ => none) evLoc).1 (some "u2") (by decide)⟩

/-! ## Determinism of the signing step (claim C9)

Modelled from the spec: the Signer component (spec §4.4).  The signing
primitives the repository calls — `facade.signTransaction` /
`signer.signTransaction`, `attachSignature`, `facade.hashTransaction` —
live in the external `symbol-sdk` package, not under `src/`; the spec
states the contract: "computes a deterministic signature (same inputs ⇒
byte-identical output)" over the bytes binding descriptor and key, and a
hash of the resulting wire payload.  The model makes the ambient
per-invocation state (clock, entropy pool) an explicit argument so the
determinism hyperproperty is expressible as ambient-independence: the
spec-modelled signing step consults none of it. -/

/-- The transaction descriptor as the spec's data model has it (§3):
recipient, the zero-amount native-unit attachment, the embedded message,
deadline and fee multiplier. -/
structure TxDescriptor where
  recipient : String
  mosaicId : Nat
  amount : Nat
  message : List Nat
  deadlineSeconds : Nat
  feeMultiplier : Nat
deriving DecidableEq, Repr

/-- Ambient state a JavaScript invocation could observe (wall clock,
entropy pool). -/
structure AmbientState where
  nowMs : Nat
  entropy : Nat
deriving DecidableEq, Repr

/-- Modelled from the spec: the signing bytes binding the descriptor
fields (a stand-in serialization; only its functional dependence on the
descriptor matters for the claim). -/
def signingBytes (d : TxDescriptor) : List Nat :=
  d.mosaicId :: d.amount :: d.deadlineSeconds :: d.feeMultiplier ::
    (d.recipient.toList.map Char.toNat ++ d.message)

/-- Modelled from the spec: a deterministic signature (stand-in for the
Ed25519 signature, which per the spec is a pure function of key and
signing bytes — no per-signature randomness). -/
def signatureOf (priv : Nat) (bytes : List Nat) : List Nat :=
  bytes.map (fun b => (b * 31 + priv) % 256)

/-- Modelled from the spec: the transaction hash of a wire payload. -/
def txHashOf (bytes : List Nat) : Nat :=
  bytes.foldl (fun a b => (a * 131 + b) % 18446744073709551616) 7

/-- Modelled from the spec: the whole signing step — build signing bytes
from key and descriptor, sign deterministically, attach, hash — returning
the normalized `{payload, hash}`.  The ambient state is in scope, as it is
for any JavaScript call, and is deliberately never consulted. -/
def signStep (priv : Nat) (d : TxDescriptor) (_w : AmbientState) : List Nat × Nat :=
  (signingBytes d ++ signatureOf priv (signingBytes d),
   txHashOf (signingBytes d ++ signatureOf priv (signingBytes d)))

/-- Claim C9 (confirmed, against the spec-modelled Signer).  With the key
and the descriptor fixed, two independent invocations of the signing step
— at different times, with different entropy — produce a byte-identical
wire payload and an identical transaction hash: the signing step is
independent of the ambient invocation state. -/
theorem signStep_deterministic (priv : Nat) (d : TxDescriptor) (w₁ w₂ : AmbientState) :
    signStep priv d w₁ = signStep priv d w₂ := rfl

end LineToSymbol
